import Mathlib

/-!
Shallow embedding of the cowin-assist availability polling and alert dispatch
engine, translated from src/cowinapi/__init__.py and src/main.py.

Machine integers are modelled as Nat / Int; timestamps are Int seconds so that
the Python timedelta normalisation (floor division by 86400) is exact.  Python
exceptions are modelled as explicit result constructors that propagate through
the cycle loop the way the exceptions do in the source.
-/

namespace CowinAssist

/-- Session record, from class Session in src/cowinapi/__init__.py.  The JSON
field available_capacity is stored in the attribute named capacity, exactly as
the Python constructor does. -/
structure Session where
  date : String
  capacity : Int
  min_age_limit : Nat
  vaccine : String
  slots : List String
  deriving DecidableEq

/-- Embeds Session.is_available: capacity strictly positive. -/
def Session.is_available (s : Session) : Bool :=
  s.capacity > 0

/-- Vaccination center record, from class VaccinationCenter in
src/cowinapi/__init__.py. -/
structure VaccinationCenter where
  name : String
  block_name : String
  fee_type : String
  sessions : List Session
  deriving DecidableEq

/-- Embeds VaccinationCenter.get_available_sessions: the sessions with positive
remaining capacity. -/
def VaccinationCenter.get_available_sessions (vc : VaccinationCenter) : List Session :=
  vc.sessions.filter (fun s => s.is_available)

/-- Embeds VaccinationCenter.has_available_sessions. -/
def VaccinationCenter.has_available_sessions (vc : VaccinationCenter) : Bool :=
  vc.get_available_sessions.length > 0

/-- Embeds VaccinationCenter.get_available_sessions_by_age_limit: despite its
name, the source keeps every session whose min_age_limit equals the argument,
with no availability check. -/
def VaccinationCenter.get_available_sessions_by_age_limit
    (vc : VaccinationCenter) (age_limit : Nat) : List Session :=
  vc.sessions.filter (fun s => s.min_age_limit == age_limit)

/-- Upstream HTTP response as observed by CoWinAPI.calender_by_pin: the status
code, the parsed centers array of a 200 body, and the errorCode and error
fields of a 400 body. -/
structure ProviderResponse where
  status_code : Nat
  centers : List VaccinationCenter
  errorCode : String
  error : String
  deriving DecidableEq

/-- Result of one provider call.  snapshot embeds a non-None return value,
nothing embeds a None return, exnInvalid embeds a raised CoWinAPIException
(HTTP 400), and exnTooManyRequests embeds a raised CoWinTooManyRequests
(HTTP 403). -/
inductive FetchResult where
  | snapshot (centers : List VaccinationCenter)
  | nothing
  | exnInvalid (errorCode : String) (error : String)
  | exnTooManyRequests
  deriving DecidableEq

/-- Embeds CoWinAPI.calender_by_pin, src/cowinapi/__init__.py lines 109-121:
400 raises CoWinAPIException, 403 raises CoWinTooManyRequests, any other
non-200 status returns None, a 200 body with a non-empty centers array returns
the parsed centers, and a 200 body with an empty centers array returns None. -/
def calender_by_pin (r : ProviderResponse) : FetchResult :=
  if r.status_code = 400 then .exnInvalid r.errorCode r.error
  else if r.status_code = 403 then .exnTooManyRequests
  else if r.status_code ≠ 200 then .nothing
  else if r.centers ≠ [] then .snapshot r.centers
  else .nothing

/-- Embeds AgeRangePref from src/main.py. -/
inductive AgeRangePref where
  | Unknown
  | MinAge18
  | MinAge45
  | MinAgeAny
  deriving DecidableEq

/-- Poll interval of the fast (18+) worker, src/main.py line 30. -/
def MIN_18_WORKER_INTERVAL : Nat := 30

/-- Poll interval of the slow (45+) worker, src/main.py line 32. -/
def MIN_45_WORKER_INTERVAL : Nat := 60 * 10

/-- Minimum gap before bothering a 45+ user again, src/main.py line 35. -/
def MIN_45_NOTIFICATION_DELAY : Int := 60 * 30

/-- Sleep after an unexpected exception, src/main.py line 38. -/
def EXCEPTION_SLEEP_INTERVAL : Nat := 10

/-- Pacing delay between provider calls in a cycle, src/main.py line 40. -/
def COWIN_API_DELAY_INTERVAL : Nat := 180

/-- Sleep after a 403 from the provider, src/main.py line 42. -/
def LIMIT_EXCEEDED_DELAY_INTERVAL : Nat := 60 * 5

/-- Maximum Telegram message length, the MAX_MESSAGE_LENGTH constant imported
from the telegram library in src/main.py. -/
def MAX_MESSAGE_LENGTH : Nat := 4096

/-- Subscriber record, from class User in src/main.py.  The created_at and
updated_at bookkeeping timestamps, which no engine code path reads, are
omitted; last_alert_sent_at is an Int timestamp in seconds. -/
structure User where
  telegram_id : Nat
  chat_id : Nat
  pincode : Option Nat
  age_limit : AgeRangePref
  enabled : Bool
  last_alert_sent_at : Int
  total_alerts_sent : Nat
  deriving DecidableEq

/-- Footer appended by sanitise_msg when it truncates, src/main.py line 117. -/
def truncation_notice : List Char :=
  "\n\n (message truncated due to size)".toList

/-- Embeds sanitise_msg, src/main.py lines 106-119, on the character list of
the message. -/
def sanitise_msg (msg : List Char) : List Char :=
  if msg.length < MAX_MESSAGE_LENGTH then msg
  else msg.take (MAX_MESSAGE_LENGTH - truncation_notice.length) ++ truncation_notice

/-- Embeds filter_centers_by_age_limit, src/main.py lines 326-352.  The deep
copy followed by in-place session replacement in the source becomes a map
producing new center values. -/
def filter_centers_by_age_limit (age_limit : AgeRangePref)
    (centers : List VaccinationCenter) : List VaccinationCenter :=
  if centers = [] then centers
  else if age_limit = .MinAgeAny ∨ age_limit = .Unknown then centers
  else
    let filter_age : Nat := if age_limit = .MinAge18 then 18 else 45
    let centers_copy := centers.map
      (fun vc => { vc with sessions := vc.get_available_sessions_by_age_limit filter_age })
    centers_copy.filter (fun vc => vc.has_available_sessions)

/-- Embeds get_available_centers_by_pin, src/main.py lines 295-299: on a
successful fetch the centers are narrowed to those with available sessions;
None returns and exceptions pass through unchanged. -/
def get_available_centers_by_pin (r : ProviderResponse) : FetchResult :=
  match calender_by_pin r with
  | .snapshot cs => .snapshot (cs.filter (fun vc => vc.has_available_sessions))
  | other => other

/-- Seconds attribute of the Python timedelta time_now - last: timedelta
normalises with floor division, so the attribute equals the difference modulo
86400 (Int emod, always in [0, 86400)).  This is NOT the total elapsed
seconds once a full day has passed. -/
def timedelta_seconds (time_now last : Int) : Int :=
  (time_now - last) % 86400

/-- Embeds the per-user body of background_worker, src/main.py lines 512-545:
returns some filtered_centers when the loop reaches send_alert_to_user for
this user with that list, and none when the loop continues without alerting.
The duplicated filter computation of the 18+ branch (lines 525-530) is kept as
in the source. -/
def user_cycle_decision (time_now : Int) (vaccination_centers : List VaccinationCenter)
    (user : User) : Option (List VaccinationCenter) :=
  let delta_seconds := timedelta_seconds time_now user.last_alert_sent_at
  if user.age_limit = .MinAge45 then
    if delta_seconds < MIN_45_NOTIFICATION_DELAY then none
    else
      let filtered_centers := filter_centers_by_age_limit user.age_limit vaccination_centers
      if filtered_centers = [] then none else some filtered_centers
  else if user.age_limit = .MinAge18 then
    let filtered_centers := filter_centers_by_age_limit user.age_limit vaccination_centers
    if filtered_centers = [] then none
    else
      let filtered_again := filter_centers_by_age_limit user.age_limit vaccination_centers
      if filtered_again = [] then none else some filtered_again
  else if user.age_limit = .MinAgeAny then
    let filtered_centers :=
      if delta_seconds < MIN_45_NOTIFICATION_DELAY then
        filter_centers_by_age_limit .MinAge18 vaccination_centers
      else
        filter_centers_by_age_limit user.age_limit vaccination_centers
    if filtered_centers = [] then none else some filtered_centers
  else none

/-- Outcome of one bot.send_message call inside send_alert_to_user: sent is a
normal return, recipientGone is telegram.error.Unauthorized, and
transientFailure is any other exception, which the source does not catch. -/
inductive DeliveryOutcome where
  | sent
  | recipientGone
  | transientFailure
  deriving DecidableEq

/-- Embeds send_alert_to_user, src/main.py lines 443-458, as a function of the
delivery outcome: the returned pair is the updated user record and whether
user.save() ran.  On transientFailure the exception propagates before either
mutation branch, so the record is unchanged and not saved. -/
def send_alert_to_user (time_now : Int) (user : User)
    (centers : List VaccinationCenter) (outcome : DeliveryOutcome) : User × Bool :=
  if centers = [] then (user, false)
  else
    match outcome with
    | .recipientGone => ({ user with enabled := false }, true)
    | .sent =>
      ({ user with
          last_alert_sent_at := time_now,
          total_alerts_sent := user.total_alerts_sent + 1 }, true)
    | .transientFailure => (user, false)

/-- Exception escaping one background_worker cycle: tooManyRequests is
CoWinTooManyRequests, apiError is the CoWinAPIException of a 400 response, and
sendError is an uncaught delivery exception. -/
inductive CycleExn where
  | tooManyRequests
  | apiError (errorCode : String) (error : String)
  | sendError
  deriving DecidableEq

/-- One Dispatcher invocation: send_alert_to_user was called for this user
with this non-empty filtered center list, and the delivery gave this
outcome. -/
structure Dispatch where
  pin : Nat
  user : User
  centers : List VaccinationCenter
  outcome : DeliveryOutcome
  deriving DecidableEq

/-- Observable result of one background_worker cycle: the pincodes for which a
provider call was made, in order, the Dispatcher invocations, and the
exception that aborted the cycle, if any. -/
structure CycleResult where
  fetched : List Nat
  dispatches : List Dispatch
  abort : Option CycleExn
  deriving DecidableEq

/-- Age-band condition of both subscriber queries in background_worker,
src/main.py lines 495-497 and 508-511. -/
def matches_band (age_limit : AgeRangePref) (u : User) : Bool :=
  u.age_limit == .MinAgeAny || u.age_limit == age_limit

/-- Selection condition of the per-pincode user query, src/main.py
lines 508-511. -/
def user_matches_cycle (age_limit : AgeRangePref) (p : Nat) (u : User) : Bool :=
  u.pincode == some p && u.enabled && matches_band age_limit u

/-- Embeds the inner user loop of background_worker for one pincode,
src/main.py lines 512-545, threading the delivery outcomes: a transientFailure
exception aborts the rest of the cycle. -/
def process_users (time_now : Int) (age_limit : AgeRangePref) (p : Nat)
    (avail : List VaccinationCenter) (send : User → DeliveryOutcome) :
    List User → List Dispatch × Option CycleExn
  | [] => ([], none)
  | u :: rest =>
    if user_matches_cycle age_limit p u then
      match user_cycle_decision time_now avail u with
      | none => process_users time_now age_limit p avail send rest
      | some filtered =>
        match send u with
        | .transientFailure => ([⟨p, u, filtered, .transientFailure⟩], some .sendError)
        | o =>
          let r := process_users time_now age_limit p avail send rest
          (⟨p, u, filtered, o⟩ :: r.1, r.2)
    else process_users time_now age_limit p avail send rest

/-- Embeds the pincode loop of background_worker, src/main.py lines 500-545.
env gives the provider response for each pincode; a raised CoWinAPIException
or CoWinTooManyRequests propagates out of the loop immediately, ending the
cycle, exactly as the uncaught Python exception does. -/
def run_cycle (time_now : Int) (age_limit : AgeRangePref) (env : Nat → ProviderResponse)
    (send : User → DeliveryOutcome) (users : List User) :
    List Nat → CycleResult
  | [] => ⟨[], [], none⟩
  | p :: rest =>
    match get_available_centers_by_pin (env p) with
    | .exnTooManyRequests => ⟨[p], [], some .tooManyRequests⟩
    | .exnInvalid ec e => ⟨[p], [], some (.apiError ec e)⟩
    | .nothing =>
      let r := run_cycle time_now age_limit env send users rest
      ⟨p :: r.fetched, r.dispatches, r.abort⟩
    | .snapshot cs =>
      if cs = [] then
        let r := run_cycle time_now age_limit env send users rest
        ⟨p :: r.fetched, r.dispatches, r.abort⟩
      else
        match process_users time_now age_limit p cs send users with
        | (ds, some e) => ⟨[p], ds, some e⟩
        | (ds, none) =>
          let r := run_cycle time_now age_limit env send users rest
          ⟨p :: r.fetched, ds ++ r.dispatches, r.abort⟩

/-- Embeds the distinct pincode query of background_worker, src/main.py
lines 495-499: distinct non-null pincodes among enabled subscribers matching
the cadence band. -/
def distinct_pincodes (age_limit : AgeRangePref) (users : List User) : List Nat :=
  ((users.filter (fun u => u.pincode.isSome && u.enabled && matches_band age_limit u)).filterMap
    (fun u => u.pincode)).dedup

/-- Embeds one call of background_worker, src/main.py lines 491-545. -/
def background_worker (time_now : Int) (age_limit : AgeRangePref)
    (env : Nat → ProviderResponse) (send : User → DeliveryOutcome)
    (users : List User) : CycleResult :=
  run_cycle time_now age_limit env send users (distinct_pincodes age_limit users)

/-- Embeds the exception handling of frequent_background_worker and
periodic_background_worker, src/main.py lines 461-488: the sleep chosen after
one cycle, where interval is the cadence poll interval. -/
def worker_sleep (interval : Nat) (r : CycleResult) : Nat :=
  match r.abort with
  | none => interval
  | some .tooManyRequests => LIMIT_EXCEEDED_DELAY_INTERVAL
  | some _ => EXCEPTION_SLEEP_INTERVAL

/-- Modelled from the spec: the C7 reading of the Availability Filter, which
after retaining the sessions matching the threshold drops exactly the centers
left with zero retained (qualifying) sessions.  Written from the spec words
for comparison with filter_centers_by_age_limit, which instead drops centers
with no retained session of positive capacity. -/
def filter_centers_spec_reading (age_limit : AgeRangePref)
    (centers : List VaccinationCenter) : List VaccinationCenter :=
  match age_limit with
  | .Unknown | .MinAgeAny => centers
  | band =>
    let t : Nat := if band = .MinAge18 then 18 else 45
    (centers.map
      (fun vc => { vc with sessions := vc.sessions.filter (fun s => s.min_age_limit == t) })).filter
      (fun vc => !vc.sessions.isEmpty)

/-- Telegram markdown emphasis delimiters must pair up; an odd number of star
characters leaves one sequence unterminated. -/
def has_unterminated_markdown (msg : List Char) : Bool :=
  msg.count '*' % 2 == 1

/-! Concrete example data used by witnesses and counterexamples. -/

/-- Example 45+ session with remaining capacity. -/
def session45avail : Session := ⟨"01-05-2021", 5, 45, "COVISHIELD", []⟩

/-- Example center whose only session is 45+ with capacity. -/
def center45 : VaccinationCenter := ⟨"c45", "blr", "Free", [session45avail]⟩

/-- Example 18+ session with zero remaining capacity. -/
def session18zero : Session := ⟨"01-05-2021", 0, 18, "COVISHIELD", []⟩

/-- Example center whose only session is 18+ but has zero capacity. -/
def center18zero : VaccinationCenter := ⟨"c18z", "blr", "Free", [session18zero]⟩

/-- Example 18+ session with remaining capacity. -/
def session18avail : Session := ⟨"01-05-2021", 7, 18, "COVISHIELD", []⟩

/-- Example center whose only session is 18+ with capacity. -/
def center18 : VaccinationCenter := ⟨"c18", "blr", "Free", [session18avail]⟩

/-- Enabled 45+ subscriber whose last alert timestamp is 0. -/
def user45stale : User := ⟨1, 1, some 560001, .MinAge45, true, 0, 0⟩

/-- Enabled Any-band subscriber whose last alert timestamp is 0. -/
def userAnyStale : User := ⟨2, 2, some 560001, .MinAgeAny, true, 0, 0⟩

/-- C1: the claim says a single-band subscriber is permitted a dispatch if and
only if now - last_alert_sent_at is at least the band gap.  The code instead
compares the seconds attribute of the Python timedelta, which is the elapsed
time modulo one day.  At a cycle starting exactly 86400 seconds after the last
alert, the 30-minute gap has long elapsed and a matching available 45+ center
exists, yet the worker skips the 45+ subscriber: delta.seconds is 0.  The
configuration comment at src/main.py lines 33-35 states the intended rule (do
not bother the user only if an alert was sent in the last 30 minutes), so this
is a slip in the code (.seconds instead of .total_seconds()). -/
theorem c1_gap_elapsed_but_skipped :
    MIN_45_NOTIFICATION_DELAY ≤ (86400 : Int) - user45stale.last_alert_sent_at ∧
    filter_centers_by_age_limit .MinAge45 [center45] = [center45] ∧
    user_cycle_decision 86400 [center45] user45stale = none := by
  refine ⟨by decide, by decide, by decide⟩

/-- C2: the claim says an Any-band subscriber is served the combined
unfiltered snapshot once the slower band gap has elapsed.  At a cycle starting
exactly 86400 seconds after the last alert the slow gap has elapsed, the
combined snapshot is the non-empty [center45], yet the worker serves the
18+-only filter (timedelta.seconds is 0, read as within the gap), which is
empty here, so no dispatch happens at all.  Same .seconds slip as C1. -/
theorem c2_gap_elapsed_but_fast_filter_used :
    MIN_45_NOTIFICATION_DELAY ≤ (86400 : Int) - userAnyStale.last_alert_sent_at ∧
    filter_centers_by_age_limit .MinAgeAny [center45] = [center45] ∧
    user_cycle_decision 86400 [center45] userAnyStale = none := by
  refine ⟨by decide, by decide, by decide⟩

/-- C6: dispatch mutates subscriber state exactly according to its outcome.
On sent it advances last_alert_sent_at to now and increments
total_alerts_sent; on recipientGone it only disables alerts; on
transientFailure nothing is mutated; the boolean records whether the record
was persisted (user.save()), which happens exactly in the first two cases. -/
theorem c6_dispatch_outcomes (time_now : Int) (user : User)
    (centers : List VaccinationCenter) (h : centers ≠ []) :
    send_alert_to_user time_now user centers .sent =
      ({ user with
          last_alert_sent_at := time_now,
          total_alerts_sent := user.total_alerts_sent + 1 }, true) ∧
    send_alert_to_user time_now user centers .recipientGone =
      ({ user with enabled := false }, true) ∧
    send_alert_to_user time_now user centers .transientFailure = (user, false) := by
  refine ⟨?_, ?_, ?_⟩ <;> simp [send_alert_to_user, h]

/-- Witness for c6_dispatch_outcomes at a concrete subscriber and center. -/
theorem c6_dispatch_outcomes_witness :
    send_alert_to_user 100 user45stale [center45] .sent =
      ({ user45stale with last_alert_sent_at := 100, total_alerts_sent := 1 }, true) ∧
    send_alert_to_user 100 user45stale [center45] .recipientGone =
      ({ user45stale with enabled := false }, true) ∧
    send_alert_to_user 100 user45stale [center45] .transientFailure =
      (user45stale, false) :=
  c6_dispatch_outcomes 100 user45stale [center45] (by decide)

/-- C10: the claim says a successful fetch with zero centers returns a
Snapshot distinguishable from every failure classification.  In the code a
200 response with an empty centers array returns None, the very same value
returned for an Unavailable (non-OK) response, so the zero-center success is
not a Snapshot and is indistinguishable from Unavailable. -/
theorem c10_counterexample :
    calender_by_pin ⟨200, [], "", ""⟩ = FetchResult.nothing ∧
    calender_by_pin ⟨500, [], "", ""⟩ = FetchResult.nothing ∧
    calender_by_pin ⟨200, [], "", ""⟩ ≠ FetchResult.snapshot [] := by
  refine ⟨by decide, by decide, by decide⟩

/-- C10 amended: a successful fetch with at least one center returns the
snapshot; a successful fetch with zero centers returns None, which is the
same value returned for an Unavailable response, so the zero-center success
is distinguishable from RateLimited and InvalidInput (both raised as
exceptions) but not from Unavailable. -/
theorem c10_amended (r rUnavail rNonempty : ProviderResponse)
    (h200 : r.status_code = 200) (hempty : r.centers = [])
    (hu1 : rUnavail.status_code ≠ 200) (hu2 : rUnavail.status_code ≠ 400)
    (hu3 : rUnavail.status_code ≠ 403)
    (hn : rNonempty.status_code = 200) (hne : rNonempty.centers ≠ []) :
    calender_by_pin r = FetchResult.nothing ∧
    calender_by_pin rUnavail = FetchResult.nothing ∧
    calender_by_pin rNonempty = FetchResult.snapshot rNonempty.centers := by
  refine ⟨?_, ?_, ?_⟩ <;> simp [calender_by_pin, h200, hempty, hu1, hu2, hu3, hn, hne]

/-- Witness for c10_amended at three concrete responses. -/
theorem c10_amended_witness :
    calender_by_pin ⟨200, [], "x", "y"⟩ = FetchResult.nothing ∧
    calender_by_pin ⟨500, [], "x", "y"⟩ = FetchResult.nothing ∧
    calender_by_pin ⟨200, [center18], "x", "y"⟩ = FetchResult.snapshot [center18] :=
  c10_amended ⟨200, [], "x", "y"⟩ ⟨500, [], "x", "y"⟩ ⟨200, [center18], "x", "y"⟩
    rfl rfl (by decide) (by decide) (by decide) rfl (by decide)

/-- Message of length 4163 whose two markdown star delimiters pair up, with
the closing star beyond the truncation point. -/
def long_msg : List Char :=
  '*' :: (List.replicate 4061 'a' ++ '*' :: List.replicate 100 'a')

/-- C9: the claim says truncation never produces an unterminated formatting
sequence.  Truncating long_msg keeps its opening star delimiter and cuts the
closing one, leaving an odd number of delimiters in the output, so the
truncated output does contain an unterminated markdown sequence.  The code
docstring itself warns that the naive truncation can break valid markdown. -/
theorem c9_counterexample :
    has_unterminated_markdown long_msg = false ∧
    MAX_MESSAGE_LENGTH < long_msg.length ∧
    has_unterminated_markdown (sanitise_msg long_msg) = true := by
  have hlen : long_msg.length = 4163 := by
    simp only [long_msg, List.length_cons, List.length_append, List.length_replicate]
  have hrep : (List.replicate 4061 'a').count '*' = 0 := by
    rw [List.count_replicate]; decide
  have hrep2 : (List.replicate 100 'a').count '*' = 0 := by
    rw [List.count_replicate]; decide
  have hnot : truncation_notice.count '*' = 0 := by decide
  have hcount : long_msg.count '*' = 2 := by
    simp only [long_msg, List.count_cons_self, List.count_append, hrep, hrep2]
  have h1 : ¬ long_msg.length < MAX_MESSAGE_LENGTH := by rw [hlen]; decide
  have h2 : MAX_MESSAGE_LENGTH - truncation_notice.length = 4062 := by decide
  have hsan : sanitise_msg long_msg = '*' :: (List.replicate 4061 'a' ++ truncation_notice) := by
    rw [sanitise_msg, if_neg h1, h2]
    simp only [long_msg]
    rw [List.take_cons (by norm_num : 0 < 4062)]
    norm_num
  refine ⟨?_, ?_, ?_⟩
  · simp only [has_unterminated_markdown, hcount]
    decide
  · rw [hlen]; decide
  · simp only [has_unterminated_markdown, hsan, List.count_cons_self,
      List.count_append, hrep, hnot]
    decide

/-- C9 amended: a message under the cap passes through unchanged; a message
of at least the cap length is truncated with the truncation notice appended
and the result has exactly the cap length; the truncation is naive and may
leave a formatting sequence unterminated, as the code docstring warns. -/
theorem c9_amended (msg : List Char) :
    (msg.length < MAX_MESSAGE_LENGTH → sanitise_msg msg = msg) ∧
    (MAX_MESSAGE_LENGTH ≤ msg.length →
      sanitise_msg msg =
        msg.take (MAX_MESSAGE_LENGTH - truncation_notice.length) ++ truncation_notice ∧
      (sanitise_msg msg).length = MAX_MESSAGE_LENGTH) := by
  constructor
  · intro h
    simp [sanitise_msg, h]
  · intro h
    have hlt : ¬ msg.length < MAX_MESSAGE_LENGTH := not_lt.mpr h
    have h34 : truncation_notice.length = 34 := by decide
    refine ⟨by simp [sanitise_msg, hlt], ?_⟩
    simp only [sanitise_msg, if_neg hlt, List.length_append, List.length_take, h34]
    have hmax : MAX_MESSAGE_LENGTH = 4096 := rfl
    rw [hmax] at h ⊢
    omega

/-- Identity of the filter for the Unknown preference. -/
lemma filter_identity_unknown (centers : List VaccinationCenter) :
    filter_centers_by_age_limit .Unknown centers = centers := by
  by_cases h : centers = [] <;> simp [filter_centers_by_age_limit, h]

/-- Identity of the filter for the Any preference. -/
lemma filter_identity_any (centers : List VaccinationCenter) :
    filter_centers_by_age_limit .MinAgeAny centers = centers := by
  by_cases h : centers = [] <;> simp [filter_centers_by_age_limit, h]

/-- For a single-band preference the filter is the session-retaining map
followed by the availability filter. -/
lemma filter_band_eq (band : AgeRangePref) (t : Nat)
    (hband : band = .MinAge18 ∧ t = 18 ∨ band = .MinAge45 ∧ t = 45)
    (centers : List VaccinationCenter) (hs : centers ≠ []) :
    filter_centers_by_age_limit band centers =
      (centers.map (fun vc =>
        { vc with sessions := vc.get_available_sessions_by_age_limit t })).filter
        (fun vc => vc.has_available_sessions) := by
  rcases hband with ⟨hb, ht⟩ | ⟨hb, ht⟩ <;> subst hb <;> subst ht <;>
    simp [filter_centers_by_age_limit, hs]

/-- Availability test of a center, as an existence statement. -/
lemma has_available_iff (vc : VaccinationCenter) :
    vc.has_available_sessions = true ↔ ∃ s ∈ vc.sessions, 0 < s.capacity := by
  simp [VaccinationCenter.has_available_sessions, VaccinationCenter.get_available_sessions,
    Session.is_available, List.length_pos, List.filter_eq_nil_iff]

/-- Membership in a single-band filter result: the member is the retained form
of an input center and it still has an available session. -/
lemma mem_filter_band {band : AgeRangePref} {t : Nat}
    (hband : band = .MinAge18 ∧ t = 18 ∨ band = .MinAge45 ∧ t = 45)
    {centers : List VaccinationCenter} {vc2 : VaccinationCenter}
    (h : vc2 ∈ filter_centers_by_age_limit band centers) :
    (∃ vc ∈ centers, vc2 = { vc with sessions := vc.get_available_sessions_by_age_limit t }) ∧
    vc2.has_available_sessions = true := by
  by_cases hs : centers = []
  · subst hs
    rcases hband with ⟨hb, _⟩ | ⟨hb, _⟩ <;> subst hb <;>
      simp [filter_centers_by_age_limit] at h
  · rw [filter_band_eq band t hband centers hs] at h
    rw [List.mem_filter] at h
    obtain ⟨hmem, havail⟩ := h
    rw [List.mem_map] at hmem
    obtain ⟨vc, hvc, hEq⟩ := hmem
    exact ⟨⟨vc, hvc, hEq.symm⟩, havail⟩

/-- Sessions of a member of a single-band filter result are already narrowed:
retaining again changes nothing. -/
lemma mem_filter_band_sessions {band : AgeRangePref} {t : Nat}
    (hband : band = .MinAge18 ∧ t = 18 ∨ band = .MinAge45 ∧ t = 45)
    {centers : List VaccinationCenter} {vc2 : VaccinationCenter}
    (h : vc2 ∈ filter_centers_by_age_limit band centers) :
    vc2.get_available_sessions_by_age_limit t = vc2.sessions := by
  obtain ⟨⟨vc, _, hEq⟩, _⟩ := mem_filter_band hband h
  subst hEq
  simp [VaccinationCenter.get_available_sessions_by_age_limit, List.filter_filter,
    Bool.and_self]

/-- C7: the claim reads the filter as dropping exactly the centers left with
zero retained (threshold-matching) sessions.  The code instead keeps a center
only when some retained session also has positive remaining capacity
(has_available_sessions).  center18zero has one retained 18+ session, so the
claim would keep it, but its capacity is zero and the code drops it; the
spec-reading variant keeps it. -/
theorem c7_counterexample :
    center18zero.get_available_sessions_by_age_limit 18 ≠ [] ∧
    filter_centers_by_age_limit .MinAge18 [center18zero] = [] ∧
    filter_centers_spec_reading .MinAge18 [center18zero] ≠ [] := by
  refine ⟨by decide, by decide, by decide⟩

/-- C7 amended: for Unknown and Any the filter is the identity; for a single
band with threshold t (18 for Band18Plus, 45 for Band45Plus) every output
center is an input center with exactly its threshold-matching sessions
retained and has at least one retained session with positive capacity, and
conversely every input center having a threshold-matching session with
positive capacity appears, in retained form, in the output.  The embedding is
pure, so the input snapshot is never mutated. -/
theorem c7_amended (s : List VaccinationCenter) (band : AgeRangePref) (t : Nat)
    (hband : band = .MinAge18 ∧ t = 18 ∨ band = .MinAge45 ∧ t = 45) :
    filter_centers_by_age_limit .Unknown s = s ∧
    filter_centers_by_age_limit .MinAgeAny s = s ∧
    (∀ vc2 ∈ filter_centers_by_age_limit band s,
      (∀ sess ∈ vc2.sessions, sess.min_age_limit = t) ∧
      (∃ sess ∈ vc2.sessions, 0 < sess.capacity) ∧
      ∃ vc ∈ s, vc2 = { vc with sessions := vc.get_available_sessions_by_age_limit t }) ∧
    (∀ vc ∈ s, (∃ sess ∈ vc.sessions, sess.min_age_limit = t ∧ 0 < sess.capacity) →
      { vc with sessions := vc.get_available_sessions_by_age_limit t } ∈
        filter_centers_by_age_limit band s) := by
  refine ⟨filter_identity_unknown s, filter_identity_any s, ?_, ?_⟩
  · intro vc2 h
    obtain ⟨⟨vc, hvc, hEq⟩, havail⟩ := mem_filter_band hband h
    refine ⟨?_, (has_available_iff vc2).mp havail, ⟨vc, hvc, hEq⟩⟩
    intro sess hsess
    rw [hEq] at hsess
    simp only [VaccinationCenter.get_available_sessions_by_age_limit,
      List.mem_filter, beq_iff_eq] at hsess
    exact hsess.2
  · rintro vc hvc ⟨sess, hsess, hage, hcap⟩
    by_cases hs : s = []
    · subst hs; cases hvc
    · rw [filter_band_eq band t hband s hs, List.mem_filter]
      refine ⟨List.mem_map_of_mem _ hvc, ?_⟩
      rw [has_available_iff]
      refine ⟨sess, ?_, hcap⟩
      simp only [VaccinationCenter.get_available_sessions_by_age_limit,
        List.mem_filter, beq_iff_eq]
      exact ⟨hsess, hage⟩

/-- Witness for c7_amended: the retained form of center45 is in the 45-band
filter output. -/
theorem c7_amended_witness :
    ({ center45 with sessions := center45.get_available_sessions_by_age_limit 45 }) ∈
      filter_centers_by_age_limit .MinAge45 [center45] :=
  (c7_amended [center45] .MinAge45 45 (Or.inr ⟨rfl, rfl⟩)).2.2.2 center45
    (by decide) ⟨session45avail, by decide, by decide, by decide⟩

/-- Applying the single-band filter to its own output changes nothing. -/
lemma filter_band_idem {band : AgeRangePref} {t : Nat}
    (hband : band = .MinAge18 ∧ t = 18 ∨ band = .MinAge45 ∧ t = 45)
    (centers : List VaccinationCenter) :
    filter_centers_by_age_limit band (filter_centers_by_age_limit band centers) =
      filter_centers_by_age_limit band centers := by
  set r := filter_centers_by_age_limit band centers with hr
  by_cases hrnil : r = []
  · rw [hrnil]
    rcases hband with ⟨hb, _⟩ | ⟨hb, _⟩ <;> subst hb <;> simp [filter_centers_by_age_limit]
  · rw [filter_band_eq band t hband r hrnil]
    have hmap : r.map (fun vc =>
        { vc with sessions := vc.get_available_sessions_by_age_limit t }) = r := by
      have hfix : ∀ vc ∈ r,
          { vc with sessions := vc.get_available_sessions_by_age_limit t } = vc := by
        intro vc hvc
        have hs := mem_filter_band_sessions hband (hr ▸ hvc)
        rw [hs]
      calc r.map (fun vc => { vc with sessions := vc.get_available_sessions_by_age_limit t })
          = r.map id := List.map_congr_left hfix
        _ = r := List.map_id r
    rw [hmap]
    apply List.filter_eq_self.mpr
    intro vc hvc
    exact (mem_filter_band hband (hr ▸ hvc)).2

/-- C8: the Availability Filter is idempotent for every snapshot and every
age band. -/
theorem c8_filter_idempotent (age_limit : AgeRangePref) (centers : List VaccinationCenter) :
    filter_centers_by_age_limit age_limit (filter_centers_by_age_limit age_limit centers) =
      filter_centers_by_age_limit age_limit centers := by
  cases age_limit with
  | Unknown => simp only [filter_identity_unknown]
  | MinAgeAny => simp only [filter_identity_any]
  | MinAge18 => exact filter_band_idem (Or.inl ⟨rfl, rfl⟩) centers
  | MinAge45 => exact filter_band_idem (Or.inr ⟨rfl, rfl⟩) centers

/-- Witness for c9_amended at a short and a long concrete message. -/
theorem c9_amended_witness :
    sanitise_msg [ 'h', 'i' ] = [ 'h', 'i' ] ∧
    (sanitise_msg (List.replicate 5000 'a')).length = MAX_MESSAGE_LENGTH :=
  ⟨(c9_amended [ 'h', 'i' ]).1 (by decide),
   ((c9_amended (List.replicate 5000 'a')).2
     (by simp only [List.length_replicate]; decide)).2⟩

/-- Delivery oracle where every send succeeds. -/
def send_ok : User → DeliveryOutcome := fun _ => .sent

/-- Environment where pincode 2 is rate limited and every other pincode has
one available 18+ center. -/
def env_rl : Nat → ProviderResponse := fun p =>
  if p = 2 then ⟨403, [], "", ""⟩ else ⟨200, [center18], "", ""⟩

/-- Environment where pincode 1 is an invalid pincode and every other pincode
has one available 18+ center. -/
def env_inv : Nat → ProviderResponse := fun p =>
  if p = 1 then ⟨400, [], "APPOIN0018", "Invalid Pincode"⟩ else ⟨200, [center18], "", ""⟩

/-- Environment where pincode 1 is unavailable, pincode 2 is an invalid
pincode, and every other pincode has one available 18+ center. -/
def env_mix : Nat → ProviderResponse := fun p =>
  if p = 1 then ⟨500, [], "", ""⟩
  else if p = 2 then ⟨400, [], "APPOIN0018", "Invalid Pincode"⟩
  else ⟨200, [center18], "", ""⟩

/-- Enabled 18+ subscriber at pincode 2. -/
def user18pin2 : User := ⟨3, 3, some 2, .MinAge18, true, 0, 0⟩

/-- Disabled 18+ subscriber at pincode 1. -/
def user_disabled : User := ⟨9, 9, some 1, .MinAge18, false, 0, 0⟩

/-- A 403 response surfaces as the CoWinTooManyRequests exception. -/
lemma fetch_tooMany {env : Nat → ProviderResponse} {p : Nat}
    (h : (env p).status_code = 403) :
    get_available_centers_by_pin (env p) = .exnTooManyRequests := by
  simp [get_available_centers_by_pin, calender_by_pin, h]

/-- A 400 response surfaces as the CoWinAPIException with the response error
payload. -/
lemma fetch_invalid {env : Nat → ProviderResponse} {p : Nat}
    (h : (env p).status_code = 400) :
    get_available_centers_by_pin (env p) =
      .exnInvalid (env p).errorCode (env p).error := by
  simp [get_available_centers_by_pin, calender_by_pin, h]

/-- The cycle makes a provider call only for keys of its key list. -/
lemma run_cycle_fetched_subset (time_now : Int) (age_limit : AgeRangePref)
    (env : Nat → ProviderResponse) (send : User → DeliveryOutcome) (users : List User) :
    ∀ keys : List Nat, ∀ k ∈ (run_cycle time_now age_limit env send users keys).fetched,
      k ∈ keys := by
  intro keys
  induction keys with
  | nil => intro k hk; simp [run_cycle] at hk
  | cons p rest ih =>
    intro k hk
    rcases hfr : get_available_centers_by_pin (env p) with cs | _ | ⟨ec, e⟩ | _
    · simp only [run_cycle, hfr] at hk
      by_cases hcs : cs = []
      · rw [if_pos hcs] at hk
        simp only [List.mem_cons] at hk
        rcases hk with h | h
        · exact h ▸ List.mem_cons_self p rest
        · exact List.mem_cons_of_mem p (ih k h)
      · rw [if_neg hcs] at hk
        rcases hpu : process_users time_now age_limit p cs send users with ⟨ds, e⟩
        rw [hpu] at hk
        cases e with
        | some ex =>
          simp only [List.mem_singleton] at hk
          exact hk ▸ List.mem_cons_self p rest
        | none =>
          simp only [List.mem_cons] at hk
          rcases hk with h | h
          · exact h ▸ List.mem_cons_self p rest
          · exact List.mem_cons_of_mem p (ih k h)
    · simp only [run_cycle, hfr, List.mem_cons] at hk
      rcases hk with h | h
      · exact h ▸ List.mem_cons_self p rest
      · exact List.mem_cons_of_mem p (ih k h)
    · simp only [run_cycle, hfr, List.mem_singleton] at hk
      exact hk ▸ List.mem_cons_self p rest
    · simp only [run_cycle, hfr, List.mem_singleton] at hk
      exact hk ▸ List.mem_cons_self p rest

/-- A cycle prefix that did not abort composes with the remaining keys. -/
lemma run_cycle_append (time_now : Int) (age_limit : AgeRangePref)
    (env : Nat → ProviderResponse) (send : User → DeliveryOutcome) (users : List User)
    (l2 : List Nat) :
    ∀ l1 : List Nat, (run_cycle time_now age_limit env send users l1).abort = none →
      run_cycle time_now age_limit env send users (l1 ++ l2) =
        ⟨(run_cycle time_now age_limit env send users l1).fetched ++
           (run_cycle time_now age_limit env send users l2).fetched,
         (run_cycle time_now age_limit env send users l1).dispatches ++
           (run_cycle time_now age_limit env send users l2).dispatches,
         (run_cycle time_now age_limit env send users l2).abort⟩ := by
  intro l1
  induction l1 with
  | nil => intro _; simp [run_cycle]
  | cons p rest ih =>
    intro h
    rcases hfr : get_available_centers_by_pin (env p) with cs | _ | ⟨ec, e⟩ | _
    · by_cases hcs : cs = []
      · subst hcs
        have h2 : (run_cycle time_now age_limit env send users rest).abort = none := by
          simpa [run_cycle, hfr] using h
        simp [run_cycle, hfr, ih h2]
      · rcases hpu : process_users time_now age_limit p cs send users with ⟨ds, e⟩
        cases e with
        | some ex => simp [run_cycle, hfr, hcs, hpu] at h
        | none =>
          have h2 : (run_cycle time_now age_limit env send users rest).abort = none := by
            simpa [run_cycle, hfr, hcs, hpu] using h
          simp [run_cycle, hfr, hcs, hpu, ih h2, List.append_assoc]
    · have h2 : (run_cycle time_now age_limit env send users rest).abort = none := by
        simpa [run_cycle, hfr] using h
      simp [run_cycle, hfr, ih h2]
    · simp [run_cycle, hfr] at h
    · simp [run_cycle, hfr] at h

/-- C4: when the provider rate limits key K, the whole cycle aborts at K: the
provider calls are exactly those of the non-aborting prefix plus K itself (in
particular no key after K is fetched, since every prefix call is to a prefix
key), the Dispatcher invocations are exactly those of the prefix (so the
aborted remainder mutates no subscriber state), and the worker then sleeps
LIMIT_EXCEEDED_DELAY_INTERVAL, the rate-limit backoff, whatever the cadence
interval. -/
theorem c4_rate_limited_aborts_cycle (time_now : Int) (age_limit : AgeRangePref)
    (env : Nat → ProviderResponse) (send : User → DeliveryOutcome) (users : List User)
    (pre post : List Nat) (K : Nat) (interval : Nat)
    (hpre : (run_cycle time_now age_limit env send users pre).abort = none)
    (hK : (env K).status_code = 403) :
    run_cycle time_now age_limit env send users (pre ++ K :: post) =
      ⟨(run_cycle time_now age_limit env send users pre).fetched ++ [K],
       (run_cycle time_now age_limit env send users pre).dispatches,
       some .tooManyRequests⟩ ∧
    (∀ k ∈ (run_cycle time_now age_limit env send users pre).fetched, k ∈ pre) ∧
    worker_sleep interval (run_cycle time_now age_limit env send users (pre ++ K :: post)) =
      LIMIT_EXCEEDED_DELAY_INTERVAL := by
  have habort : run_cycle time_now age_limit env send users (K :: post) =
      ⟨[K], [], some .tooManyRequests⟩ := by
    simp [run_cycle, fetch_tooMany hK]
  have happ := run_cycle_append time_now age_limit env send users (K :: post) pre hpre
  rw [habort] at happ
  refine ⟨?_, run_cycle_fetched_subset time_now age_limit env send users pre, ?_⟩
  · rw [happ]; simp
  · rw [happ]; rfl

/-- Witness for c4_rate_limited_aborts_cycle: keys 1, 2, 3 where key 2 is rate
limited; only keys 1 and 2 are fetched and the cycle aborts. -/
theorem c4_witness :
    run_cycle 0 .MinAge18 env_rl send_ok [] ([1] ++ 2 :: [3]) =
      ⟨[1, 2], [], some CycleExn.tooManyRequests⟩ := by
  have h := c4_rate_limited_aborts_cycle 0 .MinAge18 env_rl send_ok [] [1] [3] 2
    MIN_18_WORKER_INTERVAL (by decide) (by decide)
  rw [h.1]
  decide

/-- C3: the claim says an InvalidInput result for one key skips that key only
and never prevents provider calls for the other keys of the cycle.  In the
code the CoWinAPIException raised for a 400 response propagates out of
background_worker, aborting the whole cycle: with keys 1 and 2 where key 1 is
invalid, only key 1 is fetched, although key 2 alone would have been fetched
and would even have produced a dispatch. -/
theorem c3_counterexample :
    run_cycle 0 .MinAge18 env_inv send_ok [user18pin2] [1, 2] =
      ⟨[1], [], some (CycleExn.apiError "APPOIN0018" "Invalid Pincode")⟩ ∧
    (run_cycle 0 .MinAge18 env_inv send_ok [user18pin2] [2]).fetched = [2] ∧
    (run_cycle 0 .MinAge18 env_inv send_ok [user18pin2] [2]).dispatches ≠ [] := by
  refine ⟨by decide, by decide, by decide⟩

/-- C3 amended: an Unavailable fetch (client returned None, any non-OK status
other than 400 and 403) skips that key only and the cycle continues with the
remaining keys; an InvalidInput fetch (HTTP 400) raises CoWinAPIException,
which aborts the entire cycle, after which the worker sleeps the generic
EXCEPTION_SLEEP_INTERVAL backoff. -/
theorem c3_amended (time_now : Int) (age_limit : AgeRangePref)
    (env : Nat → ProviderResponse) (send : User → DeliveryOutcome) (users : List User)
    (k k2 : Nat) (rest rest2 : List Nat) (interval : Nat)
    (hk : get_available_centers_by_pin (env k) = .nothing)
    (hk2 : (env k2).status_code = 400) :
    run_cycle time_now age_limit env send users (k :: rest) =
      ⟨k :: (run_cycle time_now age_limit env send users rest).fetched,
       (run_cycle time_now age_limit env send users rest).dispatches,
       (run_cycle time_now age_limit env send users rest).abort⟩ ∧
    run_cycle time_now age_limit env send users (k2 :: rest2) =
      ⟨[k2], [], some (.apiError (env k2).errorCode (env k2).error)⟩ ∧
    worker_sleep interval (run_cycle time_now age_limit env send users (k2 :: rest2)) =
      EXCEPTION_SLEEP_INTERVAL := by
  have h2 : run_cycle time_now age_limit env send users (k2 :: rest2) =
      ⟨[k2], [], some (.apiError (env k2).errorCode (env k2).error)⟩ := by
    simp [run_cycle, fetch_invalid hk2]
  exact ⟨by simp [run_cycle, hk], h2, by rw [h2]; rfl⟩

/-- Witness for c3_amended: with key 1 unavailable the cycle still fetches
key 3; with key 2 invalid the cycle aborts at key 2. -/
theorem c3_amended_witness :
    (run_cycle 0 .MinAge18 env_mix send_ok [] [1, 3]).fetched = [1, 3] ∧
    run_cycle 0 .MinAge18 env_mix send_ok [] [2, 3] =
      ⟨[2], [], some (CycleExn.apiError "APPOIN0018" "Invalid Pincode")⟩ := by
  have h := c3_amended 0 .MinAge18 env_mix send_ok [] 1 2 [3] [3] 30
    (by decide) (by decide)
  refine ⟨?_, ?_⟩
  · rw [h.1]; decide
  · rw [h.2.1]; decide

/-- Every user dispatched by the inner user loop passed the query filter and
is therefore enabled. -/
lemma process_users_enabled (time_now : Int) (age_limit : AgeRangePref) (p : Nat)
    (avail : List VaccinationCenter) (send : User → DeliveryOutcome) :
    ∀ users : List User, ∀ d ∈ (process_users time_now age_limit p avail send users).1,
      d.user.enabled = true := by
  intro users
  induction users with
  | nil => intro d hd; simp [process_users] at hd
  | cons u rest ih =>
    intro d hd
    by_cases hm : user_matches_cycle age_limit p u = true
    · have hen : u.enabled = true := by
        simp only [user_matches_cycle, Bool.and_eq_true] at hm
        exact hm.1.2
      simp only [process_users, if_pos hm] at hd
      cases hdec : user_cycle_decision time_now avail u with
      | none => rw [hdec] at hd; exact ih d hd
      | some f =>
        rw [hdec] at hd
        cases hsend : send u with
        | transientFailure =>
          rw [hsend] at hd
          simp only [List.mem_singleton] at hd
          rw [hd]; exact hen
        | sent =>
          rw [hsend] at hd
          simp only [List.mem_cons] at hd
          rcases hd with h | h
          · rw [h]; exact hen
          · exact ih d h
        | recipientGone =>
          rw [hsend] at hd
          simp only [List.mem_cons] at hd
          rcases hd with h | h
          · rw [h]; exact hen
          · exact ih d h
    · simp only [process_users, if_neg hm] at hd
      exact ih d hd

/-- Every Dispatcher invocation of a cycle is for an enabled subscriber. -/
lemma run_cycle_dispatch_enabled (time_now : Int) (age_limit : AgeRangePref)
    (env : Nat → ProviderResponse) (send : User → DeliveryOutcome) (users : List User) :
    ∀ keys : List Nat, ∀ d ∈ (run_cycle time_now age_limit env send users keys).dispatches,
      d.user.enabled = true := by
  intro keys
  induction keys with
  | nil => intro d hd; simp [run_cycle] at hd
  | cons p rest ih =>
    intro d hd
    rcases hfr : get_available_centers_by_pin (env p) with cs | _ | ⟨ec, e⟩ | _
    · simp only [run_cycle, hfr] at hd
      by_cases hcs : cs = []
      · rw [if_pos hcs] at hd
        simp only at hd
        exact ih d hd
      · rw [if_neg hcs] at hd
        rcases hpu : process_users time_now age_limit p cs send users with ⟨ds, e⟩
        have hds : ∀ d2 ∈ ds, d2.user.enabled = true := by
          intro d2 hd2
          have h := process_users_enabled time_now age_limit p cs send users d2
          rw [hpu] at h
          exact h hd2
        rw [hpu] at hd
        cases e with
        | some ex =>
          simp only at hd
          exact hds d hd
        | none =>
          simp only [List.mem_append] at hd
          rcases hd with h | h
          · exact hds d h
          · exact ih d h
    · simp only [run_cycle, hfr] at hd
      exact ih d hd
    · simp only [run_cycle, hfr] at hd
      simp at hd
    · simp only [run_cycle, hfr] at hd
      simp at hd

/-- C5: a subscriber with alerts disabled is never dispatched by any cycle,
for any cadence band, provider environment, delivery behaviour, or subscriber
population: both worker queries require enabled = true. -/
theorem c5_disabled_never_dispatched (time_now : Int) (age_limit : AgeRangePref)
    (env : Nat → ProviderResponse) (send : User → DeliveryOutcome) (users : List User)
    (u : User) (h : u.enabled = false) :
    ∀ d ∈ (background_worker time_now age_limit env send users).dispatches, d.user ≠ u := by
  intro d hd heq
  have he := run_cycle_dispatch_enabled time_now age_limit env send users
    (distinct_pincodes age_limit users) d hd
  rw [heq, h] at he
  cases he

/-- Witness for c5_disabled_never_dispatched at a concrete disabled
subscriber and cycle. -/
theorem c5_witness :
    user_disabled.enabled = false ∧
    ∀ d ∈ (background_worker 0 .MinAge18 env_rl send_ok [user_disabled]).dispatches,
      d.user ≠ user_disabled :=
  ⟨rfl, c5_disabled_never_dispatched 0 .MinAge18 env_rl send_ok [user_disabled]
    user_disabled rfl⟩

end CowinAssist
